import Mathlib

/-!
Shallow embedding of the network CLI parameter validators
(`_validators.py` of the azure-cli network command module).

The mutable Python argument namespace is embedded as an explicit record
`Ns`; every validator becomes a function `... → Except (Err × Ns) Ns`:
a normal return yields `.ok` with the mutated namespace, a raised
exception yields `.error` carrying both the exception and the namespace
as it stands at the raise point (Python mutations performed before the
raise are visible there, matching in-place mutation semantics).

`CLIError` is embedded as `Err.cli`, `argparse.ArgumentError` as
`Err.argErr`; an operation the Python runtime would abort with a
`TypeError` (iterating resolved dict elements where strings are
expected) is `Err.typeErr`.
-/

namespace AzNetValidators

/-- Ambient session context.  Modelled from the spec: the
session/subscription collaborator supplies the active subscription
identifier when it is not explicit in the namespace
(`get_subscription_id`). -/
structure Ctx where
  subscription_id : String
deriving Repr, DecidableEq

/-- Modelled from the spec: the session collaborator that supplies the
active subscription identifier. -/
def get_subscription_id (ctx : Ctx) : String :=
  ctx.subscription_id

/-- Python truthiness of an optional string field
(`None` and the empty string are falsy). -/
def truthy : Option String → Bool
  | none => false
  | some s => s ≠ ""

/-- Python truthiness of an optional integer field
(`None` and `0` are falsy). -/
def natTruthy : Option Nat → Bool
  | none => false
  | some n => n ≠ 0

/-- Python `str()`-style view of an optional string used where the
source interpolates a possibly-`None` value into a format string. -/
def pyStr : Option String → String
  | none => "None"
  | some s => s

/-- Python `a or b` on an optional string: the value if truthy,
otherwise the fallback. -/
def pyOr (v : Option String) (d : String) : String :=
  match v with
  | none => d
  | some s => if s = "" then d else s

/-- Split a character list at every `'/'` (each separator consumed;
`n` separators yield `n + 1` segments). -/
def splitSlash : List Char → List (List Char)
  | [] => [[]]
  | c :: rest =>
    if c = '/' then [] :: splitSlash rest
    else
      match splitSlash rest with
      | h :: t => (c :: h) :: t
      | [] => [[c]]

/-- Shape check on the `'/'`-separated segments of a candidate resource
identifier: a leading empty segment, the literal `subscriptions`,
`resourceGroups` and `providers` markers, nonempty subscription, group,
provider namespace, type and name segments, and optionally exactly one
nonempty child-type / child-name pair. -/
def validSegments (segs : List (List Char)) : Bool :=
  match segs with
  | e :: s :: sub :: rgl :: rg :: pv :: pns :: ty :: nm :: rest =>
    e.isEmpty && (s = "subscriptions".data : Bool) && (sub ≠ [] : Bool) &&
    (rgl = "resourceGroups".data : Bool) && (rg ≠ [] : Bool) &&
    (pv = "providers".data : Bool) && (pns ≠ [] : Bool) &&
    (ty ≠ [] : Bool) && (nm ≠ [] : Bool) &&
    (match rest with
     | [] => true
     | [ct, cn] => (ct ≠ [] : Bool) && (cn ≠ [] : Bool)
     | _ => false)
  | _ => false

/-- Modelled from the spec: the quality check of the resource-identifier
library — is this string a well-formed resource identifier —
(`is_valid_resource_id`), i.e. the string has the hierarchical shape
`/subscriptions/<sub>/resourceGroups/<rg>/providers/<ns>/<type>/<name>`
optionally extended by one `/<childType>/<childName>` pair. -/
def is_valid_resource_id (rid : String) : Bool :=
  validSegments (splitSlash rid.data)

/-- Embeds `is_valid_resource_id` applied to a possibly-absent field: the Python
implementation short-circuits on a falsy argument, so `None` is never a
valid identifier. -/
def is_valid_resource_id_opt : Option String → Bool
  | none => false
  | some s => is_valid_resource_id s

/-- Modelled from the spec: the constructor of the resource-identifier
library (`resource_id`), producing
`/subscriptions/<sub>/resourceGroups/<rg>/providers/<ns>/<type>/<name>`
plus an optional `/<childType>/<childName>` suffix. -/
def resource_id (subscription resource_group pnamespace ty name : String)
    (child : Option (String × String)) : String :=
  let buildbase :=
    "/subscriptions/" ++ subscription ++ "/resourceGroups/" ++ resource_group ++
    "/providers/" ++ pnamespace ++ "/" ++ ty ++ "/" ++ name
  match child with
  | none => buildbase
  | some (ct, cn) => buildbase ++ "/" ++ ct ++ "/" ++ cn

/-- The two user-facing exception kinds raised by the validators, plus
the dynamic type error Python itself would raise on ill-typed field
contents. -/
inductive Err where
  | cli (msg : String)
  | argErr (msg : String)
  | typeErr
deriving Repr, DecidableEq

/-- The wrapped form a resolved list element takes:
a dict holding a single key, `id`. -/
structure IdObj where
  id : String
deriving Repr, DecidableEq

/-- One normalized backend-server entry:
a dict tagged either `IpAddress` or `Fqdn`. -/
inductive ServerRef where
  | ipAddress (s : String)
  | fqdn (s : String)
deriving Repr, DecidableEq

/-- The dynamic value of a scalar-or-list identifier field: absent
(`None`), a single string, a list of strings, or — after resolution —
a list of id-wrapping dicts. -/
inductive ListField where
  | absent
  | single (s : String)
  | names (l : List String)
  | resolved (l : List IdObj)
deriving Repr, DecidableEq

/-- Python truthiness of a scalar-or-list field. -/
def lfTruthy : ListField → Bool
  | .absent => false
  | .single s => s ≠ ""
  | .names l => l ≠ []
  | .resolved l => l ≠ []

/-- The dynamic value of the `servers` field: absent, the parsed list
of strings, or — after normalization — the list of tagged dicts. -/
inductive ServersField where
  | absent
  | strs (l : List String)
  | objs (l : List ServerRef)
deriving Repr, DecidableEq

/-- The argument namespace.  Each validator touches only the fields of
the command it serves; all fields of all embedded validators are
collected here, optional values standing for possibly-absent Python
attributes (`none` = `None`). -/
structure Ns where
  resource_group_name : Option String := none
  load_balancer_name : Option String := none
  inbound_nat_rule : Option String := none
  backend_address_pool : Option String := none
  load_balancer_inbound_nat_rule_ids : ListField := .absent
  load_balancer_backend_address_pool_ids : ListField := .absent
  virtual_network_name : Option String := none
  subnet : Option String := none
  private_ip_address : Option String := none
  private_ip_address_allocation : Option String := none
  public_ip_address : Option String := none
  public_ip_address_type : Option String := none
  public_ip_dns_name : Option String := none
  network_security_group : Option String := none
  network_security_group_type : Option String := none
  subnet_address_prefix : String := ""
  vnet_address_prefix : String := ""
  subnet_type : Option String := none
  servers : ServersField := .absent
  cert_data : Option String := none
  cert_password : Option String := none
  http_listener_protocol : Option String := none
  frontend_port : Option Nat := none
  public_ip : Option String := none
  frontend_type : Option String := none
  dns_name_type : Option String := none
  internal_dns_name_label : Option String := none
  use_dns_settings : Option String := none
  dns_name : Option String := none
deriving Repr, DecidableEq

/-- Plain accessor for the subnet-prefix field. -/
def sapOf (ns : Ns) : String :=
  Ns.subnet_address_prefix ns

/-- Plain accessor for the vnet-prefix field. -/
def vapOf (ns : Ns) : String :=
  Ns.vnet_address_prefix ns

/-- The sentinel marking "explicitly specified by the user"
(`SPECIFIED_SENTINEL`, the `__SET__` marker). -/
def SPECIFIED_SENTINEL : String :=
  "__SET__"

/-- Whether `pat` occurs as a contiguous run inside the second list. -/
def listContains (pat : List Char) : List Char → Bool
  | [] => pat.isEmpty
  | c :: rest => List.isPrefixOf pat (c :: rest) || listContains pat rest

/-- Python `pat in s` substring containment. -/
def strContains (s pat : String) : Bool :=
  listContains pat.data s.data

/-- Python `str.replace` over character lists: scan left to right; at a
position where the pattern matches, emit the replacement and continue
after the matched occurrence; otherwise copy one character.  The fuel
is the input length, ample since every step consumes at least one
character. -/
def pyReplaceAux (old new : List Char) : Nat → List Char → List Char
  | _, [] => []
  | 0, l => l
  | fuel + 1, c :: rest =>
    if List.isPrefixOf old (c :: rest) then
      new ++ pyReplaceAux old new fuel (List.drop (old.length - 1) rest)
    else c :: pyReplaceAux old new fuel rest

/-- Python `s.replace(old, new)` (for a nonempty pattern). -/
def pyReplace (s old new : String) : String :=
  ⟨pyReplaceAux old.data new.data s.data.length s.data⟩

/-- The `markSpecifiedAction` parser action: prepends the `__SET__`
sentinel to the parsed value. -/
def markSpecifiedAction (values : String) : String :=
  "__SET__" ++ values

/-- Embeds `_generate_lb_subproperty_id`: builds the identifier of a child of
a load balancer; an absent or falsy explicit subscription falls back to
the session value (`subscription or get_subscription_id()`). -/
def _generate_lb_subproperty_id (ctx : Ctx) (resource_group : String)
    (load_balancer_name : String) (child_type : String) (child_name : String)
    (subscription : Option String) : String :=
  resource_id (pyOr subscription (get_subscription_id ctx)) resource_group
    "Microsoft.Network" "loadBalancers" load_balancer_name
    (some (child_type, child_name))

/-- Which scalar-or-list property `_generate_lb_id_list_from_names_or_ids`
is asked to rewrite (the source passes the attribute name as a string). -/
inductive LbListProp where
  | natRuleIds
  | addressPoolIds
deriving Repr, DecidableEq

/-- Embeds `getattr(namespace, prop)`. -/
def LbListProp.get : LbListProp → Ns → ListField
  | .natRuleIds, ns => ns.load_balancer_inbound_nat_rule_ids
  | .addressPoolIds, ns => ns.load_balancer_backend_address_pool_ids

/-- Embeds `setattr(namespace, prop, v)`. -/
def LbListProp.set : LbListProp → Ns → ListField → Ns
  | .natRuleIds, ns, v => { ns with load_balancer_inbound_nat_rule_ids := v }
  | .addressPoolIds, ns, v => { ns with load_balancer_backend_address_pool_ids := v }

/-- The loop body of `_generate_lb_id_list_from_names_or_ids` over the
normalized input list: a well-formed identifier is wrapped as-is; a bare
name is wrapped after resolution, or aborts the whole loop with a
`CLIError` when no load-balancer name is available. -/
def resolveLbItems (ctx : Ctx) (subscription : String) (resource_group : String)
    (lb_name : Option String) (child_type : String) :
    List String → Except Err (List IdObj)
  | [] => .ok []
  | item :: rest =>
    if is_valid_resource_id item then
      (resolveLbItems ctx subscription resource_group lb_name child_type rest).map
        (fun r => ⟨item⟩ :: r)
    else if ¬ truthy lb_name then
      .error (.cli ("Unable to process " ++ item ++
        ". Please supply a well-formed ID or --lb-name."))
    else
      (resolveLbItems ctx subscription resource_group lb_name child_type rest).map
        (fun r => (⟨_generate_lb_subproperty_id ctx resource_group (pyOr lb_name "")
          child_type item (some subscription)⟩ : IdObj) :: r)

/-- First element of a list that is not a well-formed identifier. -/
def firstInvalid : List String → Option String
  | [] => none
  | x :: xs => if is_valid_resource_id x then firstInvalid xs else some x

/-- What the loop of `_generate_lb_id_list_from_names_or_ids` makes of
one element when it does not abort: a well-formed identifier is wrapped
as-is, a bare name is wrapped after resolution against the
load-balancer context. -/
def resolveOne (ctx : Ctx) (subscription resource_group : String)
    (lb_name : Option String) (child_type : String) (item : String) : IdObj :=
  if is_valid_resource_id item then ⟨item⟩
  else ⟨_generate_lb_subproperty_id ctx resource_group (pyOr lb_name "")
    child_type item (some subscription)⟩

/-- Embeds `_generate_lb_id_list_from_names_or_ids`: normalizes a falsy field
to a no-op, a scalar to a one-element list, resolves every element, and
stores the wrapped results back into the same attribute.  A `resolved`
(already dict-valued) nonempty field would make Python feed dicts to
`is_valid_resource_id`, a `TypeError`. -/
def _generate_lb_id_list_from_names_or_ids (ctx : Ctx) (ns : Ns)
    (prop : LbListProp) (child_type : String) : Except (Err × Ns) Ns :=
  let raw := prop.get ns
  if ¬ lfTruthy raw then .ok ns
  else
    let subscription := get_subscription_id ctx
    let lb_name := ns.load_balancer_name
    match raw with
    | .absent => .ok ns
    | .resolved _ => .error (.typeErr, ns)
    | .single s =>
      match resolveLbItems ctx subscription (pyStr ns.resource_group_name)
          lb_name child_type [s] with
      | .ok result => .ok (prop.set ns (.resolved result))
      | .error e => .error (e, ns)
    | .names l =>
      match resolveLbItems ctx subscription (pyStr ns.resource_group_name)
          lb_name child_type l with
      | .ok result => .ok (prop.set ns (.resolved result))
      | .error e => .error (e, ns)

/-- Embeds `validate_inbound_nat_rule_id_list`. -/
def validate_inbound_nat_rule_id_list (ctx : Ctx) (ns : Ns) : Except (Err × Ns) Ns :=
  _generate_lb_id_list_from_names_or_ids ctx ns .natRuleIds "inboundNatRules"

/-- Embeds `validate_address_pool_id_list`. -/
def validate_address_pool_id_list (ctx : Ctx) (ns : Ns) : Except (Err × Ns) Ns :=
  _generate_lb_id_list_from_names_or_ids ctx ns .addressPoolIds "backendAddressPools"

/-- Embeds `validate_inbound_nat_rule_name_or_id`. -/
def validate_inbound_nat_rule_name_or_id (ctx : Ctx) (ns : Ns) : Except (Err × Ns) Ns :=
  let rule_name := ns.inbound_nat_rule
  let lb_name := ns.load_balancer_name
  if is_valid_resource_id_opt rule_name then
    if truthy lb_name then
      .error (.cli "Please omit --lb-name when specifying an inbound NAT rule ID.", ns)
    else .ok ns
  else
    if ¬ truthy lb_name then
      .error (.cli "Please specify --lb-name when specifying an inbound NAT rule name.", ns)
    else
      let newid := _generate_lb_subproperty_id ctx (pyStr ns.resource_group_name)
        (pyOr lb_name "") "inboundNatRules" (pyStr rule_name) none
      .ok { ns with inbound_nat_rule := some newid }

/-- Embeds `validate_address_pool_name_or_id`. -/
def validate_address_pool_name_or_id (ctx : Ctx) (ns : Ns) : Except (Err × Ns) Ns :=
  let pool_name := ns.backend_address_pool
  let lb_name := ns.load_balancer_name
  if is_valid_resource_id_opt pool_name then
    if truthy lb_name then
      .error (.cli "Please omit --lb-name when specifying an address pool ID.", ns)
    else .ok ns
  else
    if ¬ truthy lb_name then
      .error (.cli "Please specify --lb-name when specifying an address pool name.", ns)
    else
      let newid := _generate_lb_subproperty_id ctx (pyStr ns.resource_group_name)
        (pyOr lb_name "") "backendAddressPools" (pyStr pool_name) none
      .ok { ns with backend_address_pool := some newid }

/-- Embeds `validate_subnet_name_or_id`: validates a subnet ID or, if a name is
provided, formats it as an ID. -/
def validate_subnet_name_or_id (ctx : Ctx) (ns : Ns) : Except (Err × Ns) Ns :=
  if ns.virtual_network_name = none ∧ ns.subnet = none then .ok ns
  else if ns.subnet = some "" then .ok ns
  else if truthy ns.virtual_network_name ∧ ¬ truthy ns.subnet then
    .error (.cli "You must specify --subnet name when using --vnet-name.", ns)
  else
    let is_id := is_valid_resource_id_opt ns.subnet
    if is_id ∧ truthy ns.virtual_network_name then
      .error (.argErr "Please omit --vnet-name when specifying a subnet ID", ns)
    else if ¬ is_id ∧ ¬ truthy ns.virtual_network_name then
      .error (.argErr "Please specify --vnet-name when specifying a subnet name", ns)
    else if ¬ is_id then
      let newid := resource_id (get_subscription_id ctx) (pyStr ns.resource_group_name)
        "Microsoft.Network" "virtualNetworks" (pyStr ns.virtual_network_name)
        (some ("subnets", pyStr ns.subnet))
      .ok { ns with subnet := some newid }
    else .ok ns

/-- Embeds `validate_private_ip_address`. -/
def validate_private_ip_address (ns : Ns) : Except (Err × Ns) Ns :=
  if truthy ns.private_ip_address then
    .ok { ns with private_ip_address_allocation := some "static" }
  else .ok ns

/-- Embeds `validate_public_ip_name_or_id`: validates a public IP ID or, if a
name is provided, formats it as an ID. -/
def validate_public_ip_name_or_id (ctx : Ctx) (ns : Ns) : Except (Err × Ns) Ns :=
  if truthy ns.public_ip_address then
    if is_valid_resource_id_opt ns.public_ip_address then .ok ns
    else
      let newid := resource_id (get_subscription_id ctx) (pyStr ns.resource_group_name)
        "Microsoft.Network" "publicIPAddresses" (pyStr ns.public_ip_address) none
      .ok { ns with public_ip_address := some newid }
  else .ok ns

/-- Embeds `validate_nsg_name_or_id`: validates an NSG ID or, if a name is
provided, formats it as an ID. -/
def validate_nsg_name_or_id (ctx : Ctx) (ns : Ns) : Except (Err × Ns) Ns :=
  if truthy ns.network_security_group then
    if is_valid_resource_id_opt ns.network_security_group then .ok ns
    else
      let newid := resource_id (get_subscription_id ctx) (pyStr ns.resource_group_name)
        "Microsoft.Network" "networkSecurityGroups" (pyStr ns.network_security_group) none
      .ok { ns with network_security_group := some newid }
  else .ok ns

/-- Embeds `validate_public_ip_type`: a set subnet forces the public-IP type to
`none` (in place, before any raise); subnet plus public IP is a
conflict; a DNS name is only allowed when creating a new public IP. -/
def validate_public_ip_type (ns : Ns) : Except (Err × Ns) Ns :=
  let ns1 :=
    if truthy ns.subnet then { ns with public_ip_address_type := some "none" } else ns
  if truthy ns.subnet ∧ truthy ns.public_ip_address then
    .error (.argErr
      "Cannot specify --subnet and --public-ip-address when creating a load balancer.",
      ns1)
  else if truthy ns1.public_ip_address ∧ truthy ns1.public_ip_dns_name ∧
      ns1.public_ip_address_type ≠ some "new" then
    .error (.argErr
      "Can only specify --public-ip-dns-name when creating a new public IP address.",
      ns1)
  else .ok ns1

/-- Embeds `validate_address_prefixes`: remembers whether either prefix carried
the explicit-set sentinel, strips the sentinel from both fields (one
`str.replace` pass), and raises when prefixes were explicitly specified
for a reused (non-`new`) subnet. -/
def validate_address_prefixes (ns : Ns) : Except (Err × Ns) Ns :=
  let subnet_prefix_set := strContains ( sapOf ns) SPECIFIED_SENTINEL
  let vnet_prefix_set := strContains ( vapOf ns) SPECIFIED_SENTINEL
  let ns1 := { ns with
    subnet_address_prefix := pyReplace ( sapOf ns) SPECIFIED_SENTINEL "",
    vnet_address_prefix := pyReplace ( vapOf ns) SPECIFIED_SENTINEL "" }
  if ns.subnet_type ≠ some "new" ∧ (subnet_prefix_set || vnet_prefix_set) then
    .error (.cli ("Existing subnet (" ++ pyStr ns.subnet ++
      ") found. Cannot specify address prefixes when reusing an existing subnet."), ns1)
  else .ok ns1

/-- Embeds `process_lb_create_namespace`. -/
def process_lb_create_namespace (ns : Ns) : Except (Err × Ns) Ns :=
  let ns1 :=
    if truthy ns.public_ip_dns_name then { ns with dns_name_type := some "new" } else ns
  if truthy ns1.subnet ∧ truthy ns1.public_ip_address then
    .error (.argErr "Must specify a subnet OR a public IP address, not both.", ns1)
  else .ok ns1

/-- Hexadecimal digit value of a character, if any. -/
def hexVal (c : Char) : Option Nat :=
  if '0' ≤ c ∧ c ≤ '9' then some (c.toNat - 48)
  else if 'a' ≤ c ∧ c ≤ 'f' then some (c.toNat - 87)
  else if 'A' ≤ c ∧ c ≤ 'F' then some (c.toNat - 55)
  else none

/-- C `isspace` on ASCII. -/
def isSpaceChar (c : Char) : Bool :=
  c = ' ' || c = '\t' || c = '\n' || c = '\x0b' || c = '\x0c' || c = '\r'

/-- Digit-accumulation loop of the C library `inet_aton` for one
numeric component, in the given base: decimal digits (an `8` or `9` in
octal rejects the whole string), plus hex letters in base 16; any other
character ends the component.  A component growing past `2^32 - 1` is
rejected (the C accumulator cannot represent it). -/
def ipDigits : Nat → List Char → Nat → Bool → Option (Nat × Bool × List Char)
  | _, [], val, digitSeen => some (val, digitSeen, [])
  | base, c :: cs, val, digitSeen =>
    if c.isDigit then
      if base = 8 ∧ '8' ≤ c then none
      else
        let v := val * base + (c.toNat - 48)
        if v > 4294967295 then none else ipDigits base cs v true
    else
      match hexVal c with
      | some d =>
        if base = 16 then
          let v := val * 16 + d
          if v > 4294967295 then none else ipDigits base cs v true
        else some (val, digitSeen, c :: cs)
      | none => some (val, digitSeen, c :: cs)

/-- Start of one `inet_aton` component: must begin with a digit; a
leading `0` selects octal, `0x` or `0X` selects hexadecimal. -/
def ipStartPart : List Char → Option (Nat × Bool × List Char)
  | [] => none
  | c :: cs =>
    if c = '0' then
      match cs with
      | x :: cs2 =>
        if x = 'x' ∨ x = 'X' then ipDigits 16 cs2 0 false
        else ipDigits 8 cs 0 true
      | [] => some (0, true, [])
    else if c.isDigit then ipDigits 10 (c :: cs) 0 false
    else none

/-- Dot-separated component loop of `inet_aton`: at most three dots; a
non-final component must fit a byte; after the last component only a
terminating whitespace character may follow, and the last component
must contain at least one digit.  Fuel is the input length plus one,
ample since every component consumes at least one character. -/
def ipPartsAux : Nat → List Char → List Nat → Option (List Nat)
  | 0, _, _ => none
  | fuel + 1, cs, acc =>
    match ipStartPart cs with
    | none => none
    | some (val, digitSeen, rest) =>
      match rest with
      | '.' :: rest2 =>
        if acc.length ≥ 3 ∨ val > 255 then none
        else ipPartsAux fuel rest2 (acc ++ [val])
      | [] => if digitSeen then some (acc ++ [val]) else none
      | c2 :: _ => if isSpaceChar c2 ∧ digitSeen then some (acc ++ [val]) else none

/-- Embeds `socket.inet_aton` as a recognizer: the numbers-and-dots notation
of the C library (one to four components; the final component is
bounded by what the remaining address bytes can hold). -/
def inet_aton_ok (s : String) : Bool :=
  match ipPartsAux (s.data.length + 1) s.data [] with
  | none => false
  | some parts =>
    match parts with
    | [a] => a ≤ 4294967295
    | [_, b] => b ≤ 16777215
    | [_, _, c] => c ≤ 65535
    | [_, _, _, d] => d ≤ 255
    | _ => false

/-- One backend-server entry as classified by `validate_servers`:
`socket.inet_aton` succeeding tags it `IpAddress`, the raised
`socket.error` tags it `Fqdn`. -/
def classify_server (item : String) : ServerRef :=
  if inet_aton_ok item then .ipAddress item else .fqdn item

/-- Embeds `validate_servers`: rewrites the `servers` field with the list of
tagged entries (an absent or empty field yields the empty list).  An
already-normalized nonempty field would make Python feed dicts to
`socket.inet_aton`, a `TypeError`. -/
def validate_servers (ns : Ns) : Except (Err × Ns) Ns :=
  match ns.servers with
  | .absent => .ok { ns with servers := .objs [] }
  | .strs l => .ok { ns with servers := .objs (l.map classify_server) }
  | .objs [] => .ok { ns with servers := .objs [] }
  | .objs (_ :: _) => .error (.typeErr, ns)

/-- Decimal value of a digit string. -/
def decimalVal (cs : List Char) : Nat :=
  cs.foldl (fun a c => a * 10 + (c.toNat - 48)) 0

/-- Split a character list at every `'.'`. -/
def splitDot : List Char → List (List Char)
  | [] => [[]]
  | c :: rest =>
    if c = '.' then [] :: splitDot rest
    else
      match splitDot rest with
      | h :: t => (c :: h) :: t
      | [] => [[c]]

/-- A strict dotted-quad IPv4 literal, following the words of the claim (not
the source): exactly four dot-separated components, each a nonempty
decimal numeral with value at most 255. -/
def isDottedQuad (s : String) : Bool :=
  let comps := splitDot s.data
  comps.length = 4 &&
    comps.all (fun c => c ≠ [] && c.all Char.isDigit && decimalVal c ≤ 255)

/-- Index into the standard base64 alphabet (`A-Z`, `a-z`, `0-9`, `+`,
`/`), as the ASCII code of the chosen character. -/
def b64table (n : Nat) : Nat :=
  if n < 26 then 65 + n
  else if n < 52 then 71 + n
  else if n < 62 then n - 4
  else if n = 62 then 43
  else 47

/-- Embeds `base64.b64encode` over byte lists: three input bytes become four
alphabet bytes; a final group of one or two bytes is padded with `=`
(ASCII 61). -/
def b64encode : List Nat → List Nat
  | a :: b :: c :: rest =>
    b64table (a / 4) :: b64table (a % 4 * 16 + b / 16) ::
      b64table (b % 16 * 4 + c / 64) :: b64table (c % 64) :: b64encode rest
  | [a, b] => [b64table (a / 4), b64table (a % 4 * 16 + b / 16), b64table (b % 16 * 4), 61]
  | [a] => [b64table (a / 4), b64table (a % 4 * 16), 61, 61]
  | [] => []

/-- Is a continuation byte of a UTF-8 sequence. -/
def utf8Cont (b : Nat) : Bool :=
  128 ≤ b && b ≤ 191

/-- Whether a byte list is a valid UTF-8 encoding (what
`bytes.decode` with the `utf-8` codec accepts): ASCII bytes stand
alone; multi-byte sequences follow the usual lead-byte ranges with
overlong encodings, surrogates and values beyond `U+10FFFF` excluded. -/
def utf8Valid : List Nat → Bool
  | [] => true
  | b :: rest =>
    if b < 128 then utf8Valid rest
    else
      match rest with
      | [] => false
      | b2 :: rest2 =>
        if 194 ≤ b ∧ b ≤ 223 then utf8Cont b2 && utf8Valid rest2
        else
          match rest2 with
          | [] => false
          | b3 :: rest3 =>
            if b = 224 then (160 ≤ b2 && b2 ≤ 191) && utf8Cont b3 && utf8Valid rest3
            else if (225 ≤ b ∧ b ≤ 236) ∨ b = 238 ∨ b = 239 then
              utf8Cont b2 && utf8Cont b3 && utf8Valid rest3
            else if b = 237 then (128 ≤ b2 && b2 ≤ 159) && utf8Cont b3 && utf8Valid rest3
            else
              match rest3 with
              | [] => false
              | b4 :: rest4 =>
                if b = 240 then
                  (144 ≤ b2 && b2 ≤ 191) && utf8Cont b3 && utf8Cont b4 && utf8Valid rest4
                else if 241 ≤ b ∧ b ≤ 243 then
                  utf8Cont b2 && utf8Cont b3 && utf8Cont b4 && utf8Valid rest4
                else if b = 244 then
                  (128 ≤ b2 && b2 ≤ 143) && utf8Cont b3 && utf8Cont b4 && utf8Valid rest4
                else false

/-- The string obtained by decoding a list of ASCII bytes. -/
def asciiToString (l : List Nat) : String :=
  String.mk (l.map Char.ofNat)

/-- Python 3 `str(bytes_value)` for base64 output (printable ASCII with
no quotes or escapes): the `repr` form `bovercaret...`, i.e. a `b`, a
quote, the characters, a closing quote. -/
def pyBytesRepr (l : List Nat) : String :=
  "b" ++ String.mk [Char.ofNat 39] ++ asciiToString l ++ String.mk [Char.ofNat 39]

/-- Embeds `validate_cert`: with neither certificate file nor password the
listener protocol becomes `http` and the frontend port defaults to 80;
with only one of the two a conflict is raised; with both, the bytes of the
file (supplied by the file-system environment `fs`, keyed by path) are
base64-encoded, decoded as UTF-8 text into `cert_data` (falling back to
the `str()` representation of the bytes if decoding fails), the
protocol becomes `https` and the port defaults to 443. -/
def validate_cert (fs : String → List Nat) (ns : Ns) : Except (Err × Ns) Ns :=
  let cd := truthy ns.cert_data
  let cp := truthy ns.cert_password
  if ¬ cd ∧ ¬ cp then
    let ns1 := { ns with http_listener_protocol := some "http" }
    if ¬ natTruthy ns1.frontend_port then .ok { ns1 with frontend_port := some 80 }
    else .ok ns1
  else if ¬ (cd ∧ cp) then
    .error (.argErr "To use SSL certificate, you must specify both the filename and password",
      ns)
  else
    let contents := fs (pyStr ns.cert_data)
    let base64_data := b64encode contents
    let newCert :=
      if utf8Valid base64_data then asciiToString base64_data else pyBytesRepr base64_data
    let ns1 := { ns with cert_data := some newCert, http_listener_protocol := some "https" }
    if ¬ natTruthy ns1.frontend_port then .ok { ns1 with frontend_port := some 443 }
    else .ok ns1

/-- Whether the run raised the user-input (`CLIError`) kind. -/
def isCliErr : Except (Err × Ns) Ns → Bool
  | .error (.cli _, _) => true
  | _ => false

/-! ### Helper lemmas -/

theorem b64table_lt (n : Nat) : b64table n < 128 := by
  unfold b64table
  repeat' split
  all_goals omega

theorem b64encode_mem_lt (l : List Nat) : ∀ x ∈ b64encode l, x < 128 := by
  induction l using b64encode.induct with
  | case1 a b c rest ih =>
    intro x hx
    simp only [b64encode, List.mem_cons] at hx
    rcases hx with h | h | h | h | h
    · exact h ▸ b64table_lt _
    · exact h ▸ b64table_lt _
    · exact h ▸ b64table_lt _
    · exact h ▸ b64table_lt _
    · exact ih x h
  | case2 a b =>
    intro x hx
    simp only [b64encode, List.mem_cons, List.not_mem_nil, or_false] at hx
    rcases hx with h | h | h | h
    · exact h ▸ b64table_lt _
    · exact h ▸ b64table_lt _
    · exact h ▸ b64table_lt _
    · omega
  | case3 a =>
    intro x hx
    simp only [b64encode, List.mem_cons, List.not_mem_nil, or_false] at hx
    rcases hx with h | h | h | h
    · exact h ▸ b64table_lt _
    · exact h ▸ b64table_lt _
    · omega
    · omega
  | case4 =>
    intro x hx
    simp [b64encode] at hx

theorem utf8Valid_of_ascii (l : List Nat) (h : ∀ x ∈ l, x < 128) :
    utf8Valid l = true := by
  induction l with
  | nil => rfl
  | cons b rest ih =>
    have hb : b < 128 := h b (List.mem_cons_self b rest)
    unfold utf8Valid
    rw [if_pos hb]
    exact ih (fun x hx => h x (List.mem_cons_of_mem b hx))

theorem utf8Valid_b64encode (l : List Nat) : utf8Valid (b64encode l) = true :=
  utf8Valid_of_ascii _ (b64encode_mem_lt l)

theorem splitSlash_slashCons (l : List Char) : splitSlash ('/' :: l) = [] :: splitSlash l :=
  rfl

theorem splitSlash_seg (seg l : List Char) (h : '/' ∉ seg) :
    splitSlash (seg ++ '/' :: l) = seg :: splitSlash l := by
  induction seg with
  | nil => simpa using splitSlash_slashCons l
  | cons c cs ih =>
    have hc : c ≠ '/' := fun hc => h (hc ▸ List.mem_cons_self c cs)
    have hcs : '/' ∉ cs := fun hm => h (List.mem_cons_of_mem c hm)
    simp only [List.cons_append, splitSlash, if_neg hc, List.append_eq, ih hcs]

theorem splitSlash_noSlash (seg : List Char) (h : '/' ∉ seg) :
    splitSlash seg = [seg] := by
  induction seg with
  | nil => rfl
  | cons c cs ih =>
    have hc : c ≠ '/' := fun hc => h (hc ▸ List.mem_cons_self c cs)
    have hcs : '/' ∉ cs := fun hm => h (List.mem_cons_of_mem c hm)
    simp only [splitSlash, if_neg hc, ih hcs]

theorem str_merge (a b c X : String) (h : a ++ b = c) : a ++ (b ++ X) = c ++ X := by
  rw [← String.append_assoc, h]

theorem data_template_child (sub rg pns ty nm ct cn : String) :
    ("/subscriptions/" ++ sub ++ "/resourceGroups/" ++ rg ++ "/providers/" ++ pns ++
        "/" ++ ty ++ "/" ++ nm ++ "/" ++ ct ++ "/" ++ cn).data =
      '/' :: ("subscriptions".data ++ '/' :: (sub.data ++ '/' ::
        ("resourceGroups".data ++ '/' :: (rg.data ++ '/' ::
        ("providers".data ++ '/' :: (pns.data ++ '/' :: (ty.data ++ '/' ::
        (nm.data ++ '/' :: (ct.data ++ '/' :: cn.data))))))))) := by
  have hA : "/subscriptions/".data = '/' :: ("subscriptions".data ++ ['/']) := by decide
  have hB : "/resourceGroups/".data = '/' :: ("resourceGroups".data ++ ['/']) := by decide
  have hC : "/providers/".data = '/' :: ("providers".data ++ ['/']) := by decide
  have hD : "/".data = ['/'] := by decide
  simp [String.data_append, hA, hB, hC, hD, List.append_assoc, List.cons_append,
    List.singleton_append]

theorem data_template_top (sub rg pns ty nm : String) :
    ("/subscriptions/" ++ sub ++ "/resourceGroups/" ++ rg ++ "/providers/" ++ pns ++
        "/" ++ ty ++ "/" ++ nm).data =
      '/' :: ("subscriptions".data ++ '/' :: (sub.data ++ '/' ::
        ("resourceGroups".data ++ '/' :: (rg.data ++ '/' ::
        ("providers".data ++ '/' :: (pns.data ++ '/' :: (ty.data ++ '/' :: nm.data))))))) := by
  have hA : "/subscriptions/".data = '/' :: ("subscriptions".data ++ ['/']) := by decide
  have hB : "/resourceGroups/".data = '/' :: ("resourceGroups".data ++ ['/']) := by decide
  have hC : "/providers/".data = '/' :: ("providers".data ++ ['/']) := by decide
  have hD : "/".data = ['/'] := by decide
  simp [String.data_append, hA, hB, hC, hD, List.append_assoc, List.cons_append,
    List.singleton_append]

theorem is_valid_child_template (sub rg pns ty nm ct cn : String)
    (h1 : sub.data ≠ []) (h2 : '/' ∉ sub.data)
    (h3 : rg.data ≠ []) (h4 : '/' ∉ rg.data)
    (h5 : pns.data ≠ []) (h6 : '/' ∉ pns.data)
    (h7 : ty.data ≠ []) (h8 : '/' ∉ ty.data)
    (h9 : nm.data ≠ []) (h10 : '/' ∉ nm.data)
    (h11 : ct.data ≠ []) (h12 : '/' ∉ ct.data)
    (h13 : cn.data ≠ []) (h14 : '/' ∉ cn.data) :
    is_valid_resource_id ("/subscriptions/" ++ sub ++ "/resourceGroups/" ++ rg ++
      "/providers/" ++ pns ++ "/" ++ ty ++ "/" ++ nm ++ "/" ++ ct ++ "/" ++ cn) = true := by
  unfold is_valid_resource_id
  rw [data_template_child, splitSlash_slashCons,
    splitSlash_seg _ _ (by decide), splitSlash_seg _ _ h2,
    splitSlash_seg _ _ (by decide), splitSlash_seg _ _ h4,
    splitSlash_seg _ _ (by decide), splitSlash_seg _ _ h6,
    splitSlash_seg _ _ h8, splitSlash_seg _ _ h10, splitSlash_seg _ _ h12,
    splitSlash_noSlash _ h14]
  simp [validSegments, h1, h3, h5, h7, h9, h11, h13]

theorem is_valid_top_template (sub rg pns ty nm : String)
    (h1 : sub.data ≠ []) (h2 : '/' ∉ sub.data)
    (h3 : rg.data ≠ []) (h4 : '/' ∉ rg.data)
    (h5 : pns.data ≠ []) (h6 : '/' ∉ pns.data)
    (h7 : ty.data ≠ []) (h8 : '/' ∉ ty.data)
    (h9 : nm.data ≠ []) (h10 : '/' ∉ nm.data) :
    is_valid_resource_id ("/subscriptions/" ++ sub ++ "/resourceGroups/" ++ rg ++
      "/providers/" ++ pns ++ "/" ++ ty ++ "/" ++ nm) = true := by
  unfold is_valid_resource_id
  rw [data_template_top, splitSlash_slashCons,
    splitSlash_seg _ _ (by decide), splitSlash_seg _ _ h2,
    splitSlash_seg _ _ (by decide), splitSlash_seg _ _ h4,
    splitSlash_seg _ _ (by decide), splitSlash_seg _ _ h6,
    splitSlash_seg _ _ h8, splitSlash_noSlash _ h10]
  simp [validSegments, h1, h3, h5, h7, h9]

theorem resolveLbItems_ok (ctx : Ctx) (subscription resource_group : String)
    (lb_name : Option String) (child_type : String) (l : List String)
    (h : truthy lb_name = true ∨ ∀ x ∈ l, is_valid_resource_id x = true) :
    resolveLbItems ctx subscription resource_group lb_name child_type l =
      .ok (l.map (resolveOne ctx subscription resource_group lb_name child_type)) := by
  induction l with
  | nil => rfl
  | cons item rest ih =>
    by_cases hv : is_valid_resource_id item = true
    · have hrest : truthy lb_name = true ∨ ∀ x ∈ rest, is_valid_resource_id x = true := by
        rcases h with h | h
        · exact Or.inl h
        · exact Or.inr (fun x hx => h x (List.mem_cons_of_mem item hx))
      simp [resolveLbItems, hv, ih hrest, resolveOne, Except.map]
    · have hlb : truthy lb_name = true := by
        rcases h with h | h
        · exact h
        · exact absurd (h item (List.mem_cons_self item rest)) hv
      simp [resolveLbItems, hv, hlb, ih (Or.inl hlb), resolveOne, Except.map]

theorem resolveLbItems_err (ctx : Ctx) (subscription resource_group : String)
    (lb_name : Option String) (child_type : String) (l : List String) (bad : String)
    (hlb : truthy lb_name = false) (hbad : firstInvalid l = some bad) :
    resolveLbItems ctx subscription resource_group lb_name child_type l =
      .error (.cli ("Unable to process " ++ bad ++
        ". Please supply a well-formed ID or --lb-name.")) := by
  induction l with
  | nil => simp [firstInvalid] at hbad
  | cons item rest ih =>
    by_cases hv : is_valid_resource_id item = true
    · have hbad2 : firstInvalid rest = some bad := by
        simpa [firstInvalid, hv] using hbad
      simp [resolveLbItems, hv, ih hbad2, Except.map]
    · have hb : bad = item := by
        have := hbad
        simp [firstInvalid, hv] at this
        exact this.symm
      simp [resolveLbItems, hv, hlb, hb]

theorem truthy_of_valid (v : Option String) (h : is_valid_resource_id_opt v = true) :
    truthy v = true := by
  rcases v with _ | s
  · exact absurd h (by simp [is_valid_resource_id_opt])
  · have hs : ¬ s = "" := by
      intro he
      rw [he] at h
      exact absurd h (by decide)
    simp [truthy, hs]

theorem valid_ne_empty (s : String) (h : is_valid_resource_id s = true) : s ≠ "" := by
  intro he
  rw [he] at h
  exact absurd h (by decide)

/-! ### Claim theorems -/

/-- C7 (amended): `validate_servers` maps every entry accepted by the
`inet_aton` numbers-and-dots recognizer (which also accepts forms with
fewer than three dots, and octal or hexadecimal components) to an
`IpAddress`-tagged object and every rejected entry to an `Fqdn`-tagged
object, preserving input order and length; an absent or empty input
list yields an empty output list. -/
theorem claim_C7_amended : ∀ ns : Ns,
    (∀ l, ns.servers = .strs l →
      validate_servers ns = .ok { ns with servers := .objs (l.map classify_server) } ∧
      (l.map classify_server).length = l.length ∧
      ∀ s, (inet_aton_ok s = true → classify_server s = .ipAddress s) ∧
        (inet_aton_ok s = false → classify_server s = .fqdn s)) ∧
    (ns.servers = .absent → validate_servers ns = .ok { ns with servers := .objs [] }) := by
  intro ns
  constructor
  · intro l hl
    refine ⟨?_, by simp, ?_⟩
    · simp [validate_servers, hl]
    · intro s
      constructor <;> intro h <;> simp [classify_server, h]
  · intro h
    simp [validate_servers, h]

/-- C7 witness: the two spec examples, classified through the amended
theorem. -/
theorem claim_C7_amended_witness :
    validate_servers { servers := .strs ["10.0.0.5", "db.example.com"] } =
      .ok { servers := .objs [ServerRef.ipAddress "10.0.0.5",
        ServerRef.fqdn "db.example.com"] } := by
  have h := (claim_C7_amended { servers := .strs ["10.0.0.5", "db.example.com"] }).1
    ["10.0.0.5", "db.example.com"] rfl
  exact h.1.trans (by rfl)

/-- C7 counterexample: the entry `1.2.3` is not a valid dotted-quad, so
the claim requires it to be tagged `Fqdn`; the code feeds it to
`socket.inet_aton`, which accepts it, so it is tagged `IpAddress`. -/
theorem claim_C7_counterexample :
    isDottedQuad "1.2.3" = false ∧
    validate_servers { servers := .strs ["1.2.3"] } =
      .ok { servers := .objs [ServerRef.ipAddress "1.2.3"] } :=
  ⟨by decide, by rfl⟩

/-- C8 (amended): `validate_address_prefixes` applies one left-to-right
non-overlapping removal pass of the sentinel to both prefix fields (so
a value in which the removal re-creates an overlapping occurrence can
still carry the sentinel afterwards — see the counterexample — while
any value without such self-overlap, in particular one where the
sentinel occurs only as the action-prepended marker, ends sentinel
free); it raises the user-input error exactly when the subnet is reused
(type not `new`) and at least one prefix carried the sentinel, and the
stripping is performed even on the raising path. -/
theorem claim_C8_amended : ∀ ns : Ns,
    (ns.subnet_type = some "new" ∨
        (strContains ( sapOf ns) SPECIFIED_SENTINEL = false ∧
          strContains ( vapOf ns) SPECIFIED_SENTINEL = false) →
      validate_address_prefixes ns = .ok { ns with
        subnet_address_prefix := pyReplace ( sapOf ns) SPECIFIED_SENTINEL "",
        vnet_address_prefix := pyReplace ( vapOf ns) SPECIFIED_SENTINEL "" }) ∧
    (ns.subnet_type ≠ some "new" →
      (strContains ( sapOf ns) SPECIFIED_SENTINEL ||
        strContains ( vapOf ns) SPECIFIED_SENTINEL) = true →
      validate_address_prefixes ns = .error (.cli ("Existing subnet (" ++ pyStr ns.subnet ++
          ") found. Cannot specify address prefixes when reusing an existing subnet."),
        { ns with
          subnet_address_prefix := pyReplace ( sapOf ns) SPECIFIED_SENTINEL "",
          vnet_address_prefix := pyReplace ( vapOf ns) SPECIFIED_SENTINEL "" })) := by
  intro ns
  constructor
  · intro h
    rcases h with h | ⟨h1, h2⟩
    · simp [validate_address_prefixes, h]
    · simp [validate_address_prefixes, h1, h2]
  · intro h1 h2
    simp [validate_address_prefixes, h1, h2]

/-- C8 witness: a marker-prefixed value is stripped clean when the
subnet is new, and raises (already stripped) when the subnet is
reused. -/
theorem claim_C8_amended_witness :
    validate_address_prefixes
        { subnet_address_prefix := markSpecifiedAction "10.0.0.0/24",
          subnet_type := some "new" } =
      .ok { subnet_address_prefix := "10.0.0.0/24", subnet_type := some "new" } ∧
    validate_address_prefixes
        { subnet_address_prefix := markSpecifiedAction "10.0.0.0/24",
          subnet_type := some "existing", subnet := some "subX" } =
      .error (.cli ("Existing subnet (subX) found. Cannot specify address prefixes " ++
          "when reusing an existing subnet."),
        { subnet_address_prefix := "10.0.0.0/24", subnet_type := some "existing",
          subnet := some "subX" }) := by
  constructor
  · exact ((claim_C8_amended _).1 (Or.inl rfl)).trans (by rfl)
  · exact ((claim_C8_amended _).2 (by decide) (by decide)).trans (by rfl)

/-- C8 counterexample: for the explicitly supplied value
`____SET__SET____` the single removal pass re-creates an occurrence, so
the processed field `__SET____` still contains the sentinel, refuting
the claim that the sentinel is absent from the final value under every
input. -/
theorem claim_C8_counterexample :
    validate_address_prefixes
        { subnet_address_prefix := markSpecifiedAction "____SET__SET____",
          subnet_type := some "new" } =
      .ok { subnet_address_prefix := "__SET____", subnet_type := some "new" } ∧
    strContains "__SET____" SPECIFIED_SENTINEL = true :=
  ⟨by rfl, by decide⟩

/-- C9: for gateway-style creation, a set subnet forces the public-IP
type field to `none` (also visible at the raise point), and a subnet
together with a public IP address raises the mutually-exclusive-option
(argument) error, both in `validate_public_ip_type` and in
`process_lb_create_namespace`. -/
theorem claim_C9 : ∀ ns : Ns,
    (truthy ns.subnet = true → truthy ns.public_ip_address = false →
      validate_public_ip_type ns = .ok { ns with public_ip_address_type := some "none" }) ∧
    (truthy ns.subnet = true → truthy ns.public_ip_address = true →
      validate_public_ip_type ns = .error (.argErr
        "Cannot specify --subnet and --public-ip-address when creating a load balancer.",
        { ns with public_ip_address_type := some "none" })) ∧
    (truthy ns.subnet = true → truthy ns.public_ip_address = true →
      process_lb_create_namespace ns = .error (.argErr
        "Must specify a subnet OR a public IP address, not both.",
        if truthy ns.public_ip_dns_name then { ns with dns_name_type := some "new" }
        else ns)) := by
  intro ns
  refine ⟨?_, ?_, ?_⟩
  · intro hs hp
    simp [validate_public_ip_type, hs, hp]
  · intro hs hp
    simp [validate_public_ip_type, hs, hp]
  · intro hs hp
    cases hd : truthy ns.public_ip_dns_name <;>
      simp [process_lb_create_namespace, hs, hp, hd]

/-- C9 witness: concrete namespaces exercising the forced type and both
raises. -/
theorem claim_C9_witness :
    validate_public_ip_type { subnet := some "s1" } =
      .ok { subnet := some "s1", public_ip_address_type := some "none" } ∧
    validate_public_ip_type { subnet := some "s1", public_ip_address := some "ip1" } =
      .error (.argErr
        "Cannot specify --subnet and --public-ip-address when creating a load balancer.",
        { subnet := some "s1", public_ip_address := some "ip1",
          public_ip_address_type := some "none" }) ∧
    process_lb_create_namespace { subnet := some "s1", public_ip_address := some "ip1" } =
      .error (.argErr "Must specify a subnet OR a public IP address, not both.",
        { subnet := some "s1", public_ip_address := some "ip1" }) := by
  refine ⟨?_, ?_, ?_⟩
  · exact ((claim_C9 _).1 (by decide) (by decide)).trans (by rfl)
  · exact ((claim_C9 _).2.1 (by decide) (by decide)).trans (by rfl)
  · exact ((claim_C9 _).2.2 (by decide) (by decide)).trans (by rfl)

/-- C5: with neither certificate datum set, the protocol becomes `http`
and the port defaults to 80 only when unset; with exactly one of the
file path and password set, the mutually-exclusive-option error is
raised; with both set, the protocol becomes `https`, the port defaults
to 443 only when unset, and `cert_data` holds the base64 encoding of
the exact bytes of the file at the given path. -/
theorem claim_C5 : ∀ (fs : String → List Nat) (ns : Ns),
    (truthy ns.cert_data = false → truthy ns.cert_password = false →
      validate_cert fs ns = .ok { ns with
        http_listener_protocol := some "http",
        frontend_port := if natTruthy ns.frontend_port then ns.frontend_port
          else some 80 }) ∧
    (truthy ns.cert_data ≠ truthy ns.cert_password →
      validate_cert fs ns = .error (.argErr
        "To use SSL certificate, you must specify both the filename and password", ns)) ∧
    (truthy ns.cert_data = true → truthy ns.cert_password = true →
      validate_cert fs ns = .ok { ns with
        cert_data := some (asciiToString (b64encode (fs (pyStr ns.cert_data)))),
        http_listener_protocol := some "https",
        frontend_port := if natTruthy ns.frontend_port then ns.frontend_port
          else some 443 }) := by
  intro fs ns
  refine ⟨?_, ?_, ?_⟩
  · intro h1 h2
    cases hfp : natTruthy ns.frontend_port <;> simp [validate_cert, h1, h2, hfp]
  · intro h
    cases h1 : truthy ns.cert_data <;> cases h2 : truthy ns.cert_password <;>
      simp [h1, h2] at h <;> simp [validate_cert, h1, h2]
  · intro h1 h2
    cases hfp : natTruthy ns.frontend_port <;>
      simp [validate_cert, h1, h2, hfp, utf8Valid_b64encode]

/-- C5 witness: the three certificate cases at concrete namespaces; the
two-byte file `hi` is carried into `cert_data` as its base64 text
`aGk=`. -/
theorem claim_C5_witness :
    validate_cert (fun _ => [104, 105]) {} =
      .ok { http_listener_protocol := some "http", frontend_port := some 80 } ∧
    validate_cert (fun _ => [104, 105]) { cert_password := some "pw" } =
      .error (.argErr "To use SSL certificate, you must specify both the filename and password",
        { cert_password := some "pw" }) ∧
    validate_cert (fun _ => [104, 105])
        { cert_data := some "cert.pfx", cert_password := some "pw" } =
      .ok { cert_data := some "aGk=", cert_password := some "pw",
            http_listener_protocol := some "https", frontend_port := some 443 } := by
  refine ⟨?_, ?_, ?_⟩
  · exact ((claim_C5 (fun _ => [104, 105]) {}).1 (by decide) (by decide)).trans (by rfl)
  · exact ((claim_C5 (fun _ => [104, 105]) _).2.1 (by decide)).trans (by rfl)
  · exact ((claim_C5 (fun _ => [104, 105]) _).2.2 (by decide) (by decide)).trans (by rfl)

/-- C10: the raw-bytes fallback of `validate_cert` is unreachable —
base64 output is pure ASCII, hence always valid UTF-8, so whenever both
certificate inputs are set the success path stores the decoded base64
text in `cert_data`. -/
theorem claim_C10 :
    (∀ l : List Nat, utf8Valid (b64encode l) = true) ∧
    (∀ (fs : String → List Nat) (ns : Ns),
      truthy ns.cert_data = true → truthy ns.cert_password = true →
      ∃ ns1, validate_cert fs ns = .ok ns1 ∧
        ns1.cert_data = some (asciiToString (b64encode (fs (pyStr ns.cert_data))))) := by
  constructor
  · exact utf8Valid_b64encode
  · intro fs ns h1 h2
    cases hfp : natTruthy ns.frontend_port
    · refine ⟨{ ns with
        cert_data := some (asciiToString (b64encode (fs (pyStr ns.cert_data)))),
        http_listener_protocol := some "https", frontend_port := some 443 }, ?_, by simp⟩
      simp [validate_cert, h1, h2, hfp, utf8Valid_b64encode]
    · refine ⟨{ ns with
        cert_data := some (asciiToString (b64encode (fs (pyStr ns.cert_data)))),
        http_listener_protocol := some "https" }, ?_, by simp⟩
      simp [validate_cert, h1, h2, hfp, utf8Valid_b64encode]

/-- C10 witness: a file of bytes 255, 0, 16 — not UTF-8 decodable
itself — still ends up as decoded base64 text `/wAQ`. -/
theorem claim_C10_witness :
    ∃ ns1, validate_cert (fun _ => [255, 0, 16])
        { cert_data := some "c.pfx", cert_password := some "p" } = .ok ns1 ∧
      ns1.cert_data = some "/wAQ" := by
  obtain ⟨ns1, e1, e2⟩ := claim_C10.2 (fun _ => [255, 0, 16])
    { cert_data := some "c.pfx", cert_password := some "p" } (by decide) (by decide)
  exact ⟨ns1, e1, e2.trans (by decide)⟩

/-- C6: in `validate_subnet_name_or_id`, a well-formed subnet ID
together with a virtual-network name raises; a virtual-network name
with no subnet raises; neither set is a no-op; and a subnet explicitly
set to the empty string is a no-op regardless of the virtual-network
name. -/
theorem claim_C6 : ∀ (ctx : Ctx) (ns : Ns),
    (is_valid_resource_id_opt ns.subnet = true → truthy ns.virtual_network_name = true →
      validate_subnet_name_or_id ctx ns =
        .error (.argErr "Please omit --vnet-name when specifying a subnet ID", ns)) ∧
    (truthy ns.virtual_network_name = true → ns.subnet = none →
      validate_subnet_name_or_id ctx ns =
        .error (.cli "You must specify --subnet name when using --vnet-name.", ns)) ∧
    (ns.virtual_network_name = none → ns.subnet = none →
      validate_subnet_name_or_id ctx ns = .ok ns) ∧
    (ns.subnet = some "" → validate_subnet_name_or_id ctx ns = .ok ns) := by
  intro ctx ns
  refine ⟨?_, ?_, ?_, ?_⟩
  · intro hv hvn
    rcases hs : ns.subnet with _ | s
    · rw [hs] at hv
      exact absurd hv (by simp [is_valid_resource_id_opt])
    · rcases hv2 : ns.virtual_network_name with _ | v
      · rw [hv2] at hvn
        exact absurd hvn (by decide)
      · rw [hs] at hv
        have hv' : is_valid_resource_id s = true := hv
        have hse : ¬ s = "" := valid_ne_empty s hv'
        have hve : ¬ v = "" := by
          rw [hv2] at hvn
          simpa [truthy] using hvn
        simp [validate_subnet_name_or_id, hs, hv2, hse, hve, hv',
          is_valid_resource_id_opt, truthy]
  · intro hvn hsub
    rcases hv2 : ns.virtual_network_name with _ | v
    · rw [hv2] at hvn
      exact absurd hvn (by decide)
    · have hve : ¬ v = "" := by
        rw [hv2] at hvn
        simpa [truthy] using hvn
      simp [validate_subnet_name_or_id, hsub, hv2, hve, truthy]
  · intro h1 h2
    simp [validate_subnet_name_or_id, h1, h2]
  · intro h
    simp [validate_subnet_name_or_id, h]

/-- C6 witness: the four subnet/vnet cases at concrete namespaces. -/
theorem claim_C6_witness :
    validate_subnet_name_or_id ⟨"sub1"⟩
        { subnet := some ("/subscriptions/s/resourceGroups/r/providers/" ++
            "Microsoft.Network/virtualNetworks/vn/subnets/sn"),
          virtual_network_name := some "vn" } =
      .error (.argErr "Please omit --vnet-name when specifying a subnet ID",
        { subnet := some ("/subscriptions/s/resourceGroups/r/providers/" ++
            "Microsoft.Network/virtualNetworks/vn/subnets/sn"),
          virtual_network_name := some "vn" }) ∧
    validate_subnet_name_or_id ⟨"sub1"⟩ { virtual_network_name := some "vn" } =
      .error (.cli "You must specify --subnet name when using --vnet-name.",
        { virtual_network_name := some "vn" }) ∧
    validate_subnet_name_or_id ⟨"sub1"⟩ {} = .ok {} ∧
    validate_subnet_name_or_id ⟨"sub1"⟩
        { subnet := some "", virtual_network_name := some "vn" } =
      .ok { subnet := some "", virtual_network_name := some "vn" } := by
  refine ⟨?_, ?_, ?_, ?_⟩
  · exact (claim_C6 ⟨"sub1"⟩ _).1 (by decide) (by decide)
  · exact (claim_C6 ⟨"sub1"⟩ _).2.1 (by decide) (by decide)
  · exact (claim_C6 ⟨"sub1"⟩ _).2.2.1 rfl rfl
  · exact (claim_C6 ⟨"sub1"⟩ _).2.2.2 rfl

/-- C1 (amended): a field already holding a well-formed resource
identifier is left unchanged with no error, provided the conflicting
parent-name option is not also set (the load-balancer name for the NAT
rule and address pool validators, the virtual-network name for the
subnet validator); the public-IP and NSG validators pass a well-formed
identifier through unconditionally. -/
theorem claim_C1_amended : ∀ (ctx : Ctx) (ns : Ns),
    (is_valid_resource_id_opt ns.inbound_nat_rule = true →
      truthy ns.load_balancer_name = false →
      validate_inbound_nat_rule_name_or_id ctx ns = .ok ns) ∧
    (is_valid_resource_id_opt ns.backend_address_pool = true →
      truthy ns.load_balancer_name = false →
      validate_address_pool_name_or_id ctx ns = .ok ns) ∧
    (is_valid_resource_id_opt ns.subnet = true →
      truthy ns.virtual_network_name = false →
      validate_subnet_name_or_id ctx ns = .ok ns) ∧
    (is_valid_resource_id_opt ns.public_ip_address = true →
      validate_public_ip_name_or_id ctx ns = .ok ns) ∧
    (is_valid_resource_id_opt ns.network_security_group = true →
      validate_nsg_name_or_id ctx ns = .ok ns) := by
  intro ctx ns
  refine ⟨?_, ?_, ?_, ?_, ?_⟩
  · intro hv hlb
    simp [validate_inbound_nat_rule_name_or_id, hv, hlb]
  · intro hv hlb
    simp [validate_address_pool_name_or_id, hv, hlb]
  · intro hv hvn
    rcases hs : ns.subnet with _ | s
    · rw [hs] at hv
      exact absurd hv (by simp [is_valid_resource_id_opt])
    · rw [hs] at hv
      have hv' : is_valid_resource_id s = true := hv
      have hse : ¬ s = "" := valid_ne_empty s hv'
      rcases hv2 : ns.virtual_network_name with _ | v
      · simp [validate_subnet_name_or_id, hs, hv2, hse, hv', is_valid_resource_id_opt,
          truthy]
      · have hve : v = "" := by
          rw [hv2] at hvn
          simpa [truthy] using hvn
        simp [validate_subnet_name_or_id, hs, hv2, hse, hve, hv',
          is_valid_resource_id_opt, truthy]
  · intro hv
    simp [validate_public_ip_name_or_id, hv, truthy_of_valid _ hv]
  · intro hv
    simp [validate_nsg_name_or_id, hv, truthy_of_valid _ hv]

/-- C1 witness: well-formed identifiers pass through the five
validators unchanged when no conflicting parent name is present. -/
theorem claim_C1_amended_witness :
    validate_inbound_nat_rule_name_or_id ⟨"sub1"⟩
        { inbound_nat_rule := some ("/subscriptions/s/resourceGroups/r/providers/" ++
            "Microsoft.Network/loadBalancers/lb/inboundNatRules/r1") } =
      .ok { inbound_nat_rule := some ("/subscriptions/s/resourceGroups/r/providers/" ++
        "Microsoft.Network/loadBalancers/lb/inboundNatRules/r1") } ∧
    validate_public_ip_name_or_id ⟨"sub1"⟩
        { public_ip_address := some ("/subscriptions/s/resourceGroups/r/providers/" ++
            "Microsoft.Network/publicIPAddresses/ip1") } =
      .ok { public_ip_address := some ("/subscriptions/s/resourceGroups/r/providers/" ++
        "Microsoft.Network/publicIPAddresses/ip1") } := by
  constructor
  · exact (claim_C1_amended ⟨"sub1"⟩ _).1 (by decide) (by decide)
  · exact (claim_C1_amended ⟨"sub1"⟩ _).2.2.2.1 (by decide)

/-- C1 counterexample: a well-formed inbound NAT rule ID with the
load-balancer name also set raises, where the claim demands no error
for every namespace whose field holds a well-formed identifier. -/
theorem claim_C1_counterexample :
    is_valid_resource_id_opt
      (some ("/subscriptions/s/resourceGroups/r/providers/" ++
        "Microsoft.Network/loadBalancers/lb/inboundNatRules/r1")) = true ∧
    validate_inbound_nat_rule_name_or_id ⟨"sub1"⟩
        { inbound_nat_rule := some ("/subscriptions/s/resourceGroups/r/providers/" ++
            "Microsoft.Network/loadBalancers/lb/inboundNatRules/r1"),
          load_balancer_name := some "lb" } =
      .error (.cli "Please omit --lb-name when specifying an inbound NAT rule ID.",
        { inbound_nat_rule := some ("/subscriptions/s/resourceGroups/r/providers/" ++
            "Microsoft.Network/loadBalancers/lb/inboundNatRules/r1"),
          load_balancer_name := some "lb" }) :=
  ⟨by decide, by rfl⟩

/-- C3 (amended): a bare name lacking its required parent context
raises with the message naming the missing flag and with the namespace
unchanged (so the identifier field still holds the original value); the
list helper and the NAT rule and address pool validators raise the
user-input (`CLIError`) kind, but the subnet validator raises the
option-parsing-conflict (`argparse`) kind. -/
theorem claim_C3_amended : ∀ (ctx : Ctx) (ns : Ns),
    (∀ prop child_type l bad, LbListProp.get prop ns = .names l →
      firstInvalid l = some bad → truthy ns.load_balancer_name = false →
      _generate_lb_id_list_from_names_or_ids ctx ns prop child_type =
        .error (.cli ("Unable to process " ++ bad ++
          ". Please supply a well-formed ID or --lb-name."), ns)) ∧
    (∀ nm, ns.inbound_nat_rule = some nm → is_valid_resource_id nm = false →
      truthy ns.load_balancer_name = false →
      validate_inbound_nat_rule_name_or_id ctx ns =
        .error (.cli "Please specify --lb-name when specifying an inbound NAT rule name.",
          ns)) ∧
    (∀ nm, ns.backend_address_pool = some nm → is_valid_resource_id nm = false →
      truthy ns.load_balancer_name = false →
      validate_address_pool_name_or_id ctx ns =
        .error (.cli "Please specify --lb-name when specifying an address pool name.", ns)) ∧
    (∀ nm, ns.subnet = some nm → nm ≠ "" → is_valid_resource_id nm = false →
      truthy ns.virtual_network_name = false →
      validate_subnet_name_or_id ctx ns =
        .error (.argErr "Please specify --vnet-name when specifying a subnet name", ns)) := by
  intro ctx ns
  refine ⟨?_, ?_, ?_, ?_⟩
  · intro prop child_type l bad hl hbad hlb
    have hne : l ≠ [] := by
      intro he
      rw [he] at hbad
      simp [firstInvalid] at hbad
    have htr : lfTruthy (ListField.names l) = true := by
      cases l with
      | nil => exact absurd rfl hne
      | cons x xs => rfl
    simp [_generate_lb_id_list_from_names_or_ids, htr, hl,
      resolveLbItems_err ctx _ _ _ child_type l bad hlb hbad]
  · intro nm h1 h2 hlb
    simp [validate_inbound_nat_rule_name_or_id, h1, h2, is_valid_resource_id_opt, hlb]
  · intro nm h1 h2 hlb
    simp [validate_address_pool_name_or_id, h1, h2, is_valid_resource_id_opt, hlb]
  · intro nm h1 h2 h3 hvn
    rcases hv2 : ns.virtual_network_name with _ | v
    · simp [validate_subnet_name_or_id, h1, h2, h3, hv2, is_valid_resource_id_opt, truthy]
    · have hve : v = "" := by
        rw [hv2] at hvn
        simpa [truthy] using hvn
      simp [validate_subnet_name_or_id, h1, h2, h3, hv2, hve, is_valid_resource_id_opt,
        truthy]

/-- C3 witness: the missing-context raises at concrete namespaces,
leaving the namespaces untouched. -/
theorem claim_C3_amended_witness :
    _generate_lb_id_list_from_names_or_ids ⟨"sub1"⟩
        { load_balancer_inbound_nat_rule_ids := .names ["rule1"] } .natRuleIds
        "inboundNatRules" =
      .error (.cli "Unable to process rule1. Please supply a well-formed ID or --lb-name.",
        { load_balancer_inbound_nat_rule_ids := .names ["rule1"] }) ∧
    validate_inbound_nat_rule_name_or_id ⟨"sub1"⟩ { inbound_nat_rule := some "rule1" } =
      .error (.cli "Please specify --lb-name when specifying an inbound NAT rule name.",
        { inbound_nat_rule := some "rule1" }) ∧
    validate_subnet_name_or_id ⟨"sub1"⟩ { subnet := some "mysubnet" } =
      .error (.argErr "Please specify --vnet-name when specifying a subnet name",
        { subnet := some "mysubnet" }) := by
  refine ⟨?_, ?_, ?_⟩
  · exact ((claim_C3_amended ⟨"sub1"⟩
      { load_balancer_inbound_nat_rule_ids := .names ["rule1"] }).1 .natRuleIds
      "inboundNatRules" ["rule1"] "rule1" rfl (by decide) (by decide)).trans (by rfl)
  · exact (claim_C3_amended ⟨"sub1"⟩ { inbound_nat_rule := some "rule1" }).2.1 "rule1"
      rfl (by decide) (by decide)
  · exact (claim_C3_amended ⟨"sub1"⟩ { subnet := some "mysubnet" }).2.2.2 "mysubnet"
      rfl (by decide) (by decide) (by decide)

/-- C3 counterexample: the missing-context raise of the subnet validator for
the bare name `mysubnet` is of the option-parsing-conflict
(`argparse.ArgumentError`) kind, not the configuration (`CLIError`)
kind the claim requires. -/
theorem claim_C3_counterexample :
    validate_subnet_name_or_id ⟨"sub1"⟩ { subnet := some "mysubnet", resource_group_name := some "rg1" } =
      .error (.argErr "Please specify --vnet-name when specifying a subnet name",
        { subnet := some "mysubnet", resource_group_name := some "rg1" }) ∧
    isCliErr (validate_subnet_name_or_id ⟨"sub1"⟩
      { subnet := some "mysubnet", resource_group_name := some "rg1" }) = false :=
  ⟨by rfl, by rfl⟩

/-- C4: list-valued resolution maps the input element-wise (so the
output has the same length and order, each entry wrapped as an
id-holding object and resolved independently of the others), succeeds
whenever the load-balancer name is present or every element is already
well-formed, raises the missing-context error without assigning any
output when some element is a bare name and the load-balancer name is
absent, and is a no-op on an empty or absent field. -/
theorem claim_C4 : ∀ (ctx : Ctx) (ns : Ns) (prop : LbListProp) (child_type : String),
    (lfTruthy (LbListProp.get prop ns) = false →
      _generate_lb_id_list_from_names_or_ids ctx ns prop child_type = .ok ns) ∧
    (∀ l, LbListProp.get prop ns = .names l → l ≠ [] →
      (truthy ns.load_balancer_name = true ∨ ∀ x ∈ l, is_valid_resource_id x = true) →
      _generate_lb_id_list_from_names_or_ids ctx ns prop child_type =
        .ok (LbListProp.set prop ns (.resolved (l.map (resolveOne ctx
          (get_subscription_id ctx) (pyStr ns.resource_group_name)
          ns.load_balancer_name child_type)))) ∧
      (l.map (resolveOne ctx (get_subscription_id ctx) (pyStr ns.resource_group_name)
        ns.load_balancer_name child_type)).length = l.length) ∧
    (∀ l bad, LbListProp.get prop ns = .names l → firstInvalid l = some bad →
      truthy ns.load_balancer_name = false →
      _generate_lb_id_list_from_names_or_ids ctx ns prop child_type =
        .error (.cli ("Unable to process " ++ bad ++
          ". Please supply a well-formed ID or --lb-name."), ns)) := by
  intro ctx ns prop child_type
  refine ⟨?_, ?_, ?_⟩
  · intro h
    simp [_generate_lb_id_list_from_names_or_ids, h]
  · intro l hl hne h
    have htr : lfTruthy (ListField.names l) = true := by
      cases l with
      | nil => exact absurd rfl hne
      | cons x xs => rfl
    refine ⟨?_, by simp⟩
    simp [_generate_lb_id_list_from_names_or_ids, hl, htr,
      resolveLbItems_ok ctx _ _ _ child_type l h]
  · intro l bad hl hbad hlb
    have hne : l ≠ [] := by
      intro he
      rw [he] at hbad
      simp [firstInvalid] at hbad
    have htr : lfTruthy (ListField.names l) = true := by
      cases l with
      | nil => exact absurd rfl hne
      | cons x xs => rfl
    simp [_generate_lb_id_list_from_names_or_ids, hl, htr,
      resolveLbItems_err ctx _ _ _ child_type l bad hlb hbad]

/-- C4 witness: a two-element list — a bare name and an already
well-formed identifier — resolves in order into wrapped objects; an
absent field is a no-op; a bare name without the load-balancer name
raises leaving the namespace unchanged. -/
theorem claim_C4_witness :
    _generate_lb_id_list_from_names_or_ids ⟨"sub1"⟩
        { load_balancer_backend_address_pool_ids :=
            .names ["pool1", "/subscriptions/s2/resourceGroups/r2/providers/Microsoft.Network/loadBalancers/lb2/backendAddressPools/p2"],
          load_balancer_name := some "lb1", resource_group_name := some "rg1" }
        .addressPoolIds "backendAddressPools" =
      .ok { load_balancer_backend_address_pool_ids :=
              .resolved
                [⟨"/subscriptions/sub1/resourceGroups/rg1/providers/Microsoft.Network/loadBalancers/lb1/backendAddressPools/pool1"⟩,
                 ⟨"/subscriptions/s2/resourceGroups/r2/providers/Microsoft.Network/loadBalancers/lb2/backendAddressPools/p2"⟩],
            load_balancer_name := some "lb1", resource_group_name := some "rg1" } ∧
    _generate_lb_id_list_from_names_or_ids ⟨"sub1"⟩ {} .addressPoolIds
      "backendAddressPools" = .ok {} ∧
    _generate_lb_id_list_from_names_or_ids ⟨"sub1"⟩
        { load_balancer_backend_address_pool_ids := .names ["pool1"] }
        .addressPoolIds "backendAddressPools" =
      .error (.cli "Unable to process pool1. Please supply a well-formed ID or --lb-name.",
        { load_balancer_backend_address_pool_ids := .names ["pool1"] }) := by
  refine ⟨?_, ?_, ?_⟩
  · exact (((claim_C4 ⟨"sub1"⟩
      { load_balancer_backend_address_pool_ids :=
          .names ["pool1", "/subscriptions/s2/resourceGroups/r2/providers/Microsoft.Network/loadBalancers/lb2/backendAddressPools/p2"],
        load_balancer_name := some "lb1", resource_group_name := some "rg1" }
      .addressPoolIds "backendAddressPools").2.1 _ rfl (by decide)
      (Or.inl (by decide))).1).trans (by rfl)
  · exact (claim_C4 ⟨"sub1"⟩ {} .addressPoolIds "backendAddressPools").1 rfl
  · exact ((claim_C4 ⟨"sub1"⟩
      { load_balancer_backend_address_pool_ids := .names ["pool1"] }
      .addressPoolIds "backendAddressPools").2.2 ["pool1"] "pool1" rfl (by decide)
      (by decide)).trans (by rfl)

/-- C2 (amended): a bare name with complete parent context resolves to
exactly the documented template string
(`/subscriptions/<sub>/resourceGroups/<rg>/providers/Microsoft.Network/loadBalancers/<lb>/backendAddressPools/<name>`
for the address pool, the top-level form for the public IP address).
Re-application is the identity only for the validators without an
omit-parent-name conflict check (public IP shown here): for the address
pool validator, the resolved output is recognized as already qualified
but the still-present load-balancer name now makes the second
application raise (leaving the field unchanged at the raise), so the
claimed idempotence fails there. -/
theorem claim_C2_amended :
    (∀ (ctx : Ctx) (ns : Ns) (nm lbs rgs : String),
      ns.backend_address_pool = some nm → is_valid_resource_id nm = false →
      ns.load_balancer_name = some lbs → ns.resource_group_name = some rgs →
      ctx.subscription_id.data ≠ [] → '/' ∉ ctx.subscription_id.data →
      rgs.data ≠ [] → '/' ∉ rgs.data → lbs.data ≠ [] → '/' ∉ lbs.data →
      nm.data ≠ [] → '/' ∉ nm.data →
      validate_address_pool_name_or_id ctx ns =
        .ok { ns with
          backend_address_pool := some ("/subscriptions/" ++ ctx.subscription_id ++
            "/resourceGroups/" ++ rgs ++ "/providers/Microsoft.Network/loadBalancers/" ++
            lbs ++ "/backendAddressPools/" ++ nm) } ∧
      validate_address_pool_name_or_id ctx
          { ns with
            backend_address_pool := some ("/subscriptions/" ++ ctx.subscription_id ++
              "/resourceGroups/" ++ rgs ++ "/providers/Microsoft.Network/loadBalancers/" ++
              lbs ++ "/backendAddressPools/" ++ nm) } =
        .error (.cli "Please omit --lb-name when specifying an address pool ID.",
          { ns with
            backend_address_pool := some ("/subscriptions/" ++ ctx.subscription_id ++
              "/resourceGroups/" ++ rgs ++ "/providers/Microsoft.Network/loadBalancers/" ++
              lbs ++ "/backendAddressPools/" ++ nm) })) ∧
    (∀ (ctx : Ctx) (ns : Ns) (nm rgs : String),
      ns.public_ip_address = some nm → is_valid_resource_id nm = false →
      ns.resource_group_name = some rgs →
      ctx.subscription_id.data ≠ [] → '/' ∉ ctx.subscription_id.data →
      rgs.data ≠ [] → '/' ∉ rgs.data → nm.data ≠ [] → '/' ∉ nm.data →
      validate_public_ip_name_or_id ctx ns =
        .ok { ns with
          public_ip_address := some ("/subscriptions/" ++ ctx.subscription_id ++
            "/resourceGroups/" ++ rgs ++
            "/providers/Microsoft.Network/publicIPAddresses/" ++ nm) } ∧
      validate_public_ip_name_or_id ctx
          { ns with
            public_ip_address := some ("/subscriptions/" ++ ctx.subscription_id ++
              "/resourceGroups/" ++ rgs ++
              "/providers/Microsoft.Network/publicIPAddresses/" ++ nm) } =
        .ok { ns with
          public_ip_address := some ("/subscriptions/" ++ ctx.subscription_id ++
            "/resourceGroups/" ++ rgs ++
            "/providers/Microsoft.Network/publicIPAddresses/" ++ nm) }) := by
  constructor
  · intro ctx ns nm lbs rgs h1 h2 h3 h4 hs1 hs2 hr1 hr2 hl1 hl2 hn1 hn2
    have hlbne : lbs ≠ "" := fun he => hl1 (by rw [he])
    have hUT : ("/subscriptions/" ++ ctx.subscription_id ++ "/resourceGroups/" ++ rgs ++
        "/providers/" ++ "Microsoft.Network" ++ "/" ++ "loadBalancers" ++ "/" ++ lbs ++
        "/" ++ "backendAddressPools" ++ "/" ++ nm) =
        ("/subscriptions/" ++ ctx.subscription_id ++ "/resourceGroups/" ++ rgs ++
        "/providers/Microsoft.Network/loadBalancers/" ++ lbs ++
        "/backendAddressPools/" ++ nm) := by
      simp only [String.append_assoc]
      rw [str_merge "backendAddressPools" "/" "backendAddressPools/" nm (by decide)]
      rw [str_merge "/" "backendAddressPools/" "/backendAddressPools/" nm (by decide)]
      rw [str_merge "loadBalancers" "/" "loadBalancers/" _ (by decide)]
      rw [str_merge "/" "loadBalancers/" "/loadBalancers/" _ (by decide)]
      rw [str_merge "Microsoft.Network" "/loadBalancers/" "Microsoft.Network/loadBalancers/"
        _ (by decide)]
      rw [str_merge "/providers/" "Microsoft.Network/loadBalancers/"
        "/providers/Microsoft.Network/loadBalancers/" _ (by decide)]
    have hvU := is_valid_child_template ctx.subscription_id rgs "Microsoft.Network"
      "loadBalancers" lbs "backendAddressPools" nm hs1 hs2 hr1 hr2 (by decide) (by decide)
      (by decide) (by decide) hl1 hl2 (by decide) (by decide) hn1 hn2
    have hvT : is_valid_resource_id ("/subscriptions/" ++ ctx.subscription_id ++
        "/resourceGroups/" ++ rgs ++ "/providers/Microsoft.Network/loadBalancers/" ++
        lbs ++ "/backendAddressPools/" ++ nm) = true := hUT ▸ hvU
    have key : _generate_lb_subproperty_id ctx rgs lbs "backendAddressPools" nm none =
        ("/subscriptions/" ++ ctx.subscription_id ++ "/resourceGroups/" ++ rgs ++
          "/providers/Microsoft.Network/loadBalancers/" ++ lbs ++
          "/backendAddressPools/" ++ nm) := by
      simp only [_generate_lb_subproperty_id, resource_id, pyOr, get_subscription_id]
      exact hUT
    constructor
    · simp [validate_address_pool_name_or_id, h1, h2, h3, h4, is_valid_resource_id_opt,
        truthy, hlbne, pyStr, pyOr, key]
    · simp [validate_address_pool_name_or_id, is_valid_resource_id_opt, hvT, h3,
        truthy, hlbne]
  · intro ctx ns nm rgs h1 h2 h4 hs1 hs2 hr1 hr2 hn1 hn2
    have hnmne : nm ≠ "" := fun he => hn1 (by rw [he])
    have hUT : ("/subscriptions/" ++ ctx.subscription_id ++ "/resourceGroups/" ++ rgs ++
        "/providers/" ++ "Microsoft.Network" ++ "/" ++ "publicIPAddresses" ++ "/" ++ nm) =
        ("/subscriptions/" ++ ctx.subscription_id ++ "/resourceGroups/" ++ rgs ++
        "/providers/Microsoft.Network/publicIPAddresses/" ++ nm) := by
      simp only [String.append_assoc]
      rw [str_merge "publicIPAddresses" "/" "publicIPAddresses/" nm (by decide)]
      rw [str_merge "/" "publicIPAddresses/" "/publicIPAddresses/" nm (by decide)]
      rw [str_merge "Microsoft.Network" "/publicIPAddresses/"
        "Microsoft.Network/publicIPAddresses/" _ (by decide)]
      rw [str_merge "/providers/" "Microsoft.Network/publicIPAddresses/"
        "/providers/Microsoft.Network/publicIPAddresses/" _ (by decide)]
    have hvU := is_valid_top_template ctx.subscription_id rgs "Microsoft.Network"
      "publicIPAddresses" nm hs1 hs2 hr1 hr2 (by decide) (by decide) (by decide)
      (by decide) hn1 hn2
    have hvT : is_valid_resource_id ("/subscriptions/" ++ ctx.subscription_id ++
        "/resourceGroups/" ++ rgs ++ "/providers/Microsoft.Network/publicIPAddresses/" ++
        nm) = true := hUT ▸ hvU
    have key : resource_id ctx.subscription_id rgs "Microsoft.Network"
        "publicIPAddresses" nm none =
        ("/subscriptions/" ++ ctx.subscription_id ++ "/resourceGroups/" ++ rgs ++
          "/providers/Microsoft.Network/publicIPAddresses/" ++ nm) := by
      simp only [resource_id]
      exact hUT
    have hT2ne := valid_ne_empty _ hvT
    constructor
    · simp [validate_public_ip_name_or_id, h1, h2, h4, is_valid_resource_id_opt,
        truthy, hnmne, pyStr, get_subscription_id, key]
    · simp [validate_public_ip_name_or_id, is_valid_resource_id_opt, hvT, truthy, hT2ne]

/-- C2 witness: a concrete bare pool name and public IP name resolve to
the exact template strings; re-application raises for the pool and is
the identity for the public IP. -/
theorem claim_C2_amended_witness :
    validate_address_pool_name_or_id ⟨"sub1"⟩
        { backend_address_pool := some "pool1", load_balancer_name := some "lb1",
          resource_group_name := some "rg1" } =
      .ok { backend_address_pool := some "/subscriptions/sub1/resourceGroups/rg1/providers/Microsoft.Network/loadBalancers/lb1/backendAddressPools/pool1",
            load_balancer_name := some "lb1", resource_group_name := some "rg1" } ∧
    validate_public_ip_name_or_id ⟨"sub1"⟩
        { public_ip_address := some "ip1", resource_group_name := some "rg1" } =
      .ok { public_ip_address := some "/subscriptions/sub1/resourceGroups/rg1/providers/Microsoft.Network/publicIPAddresses/ip1",
            resource_group_name := some "rg1" } ∧
    validate_public_ip_name_or_id ⟨"sub1"⟩
        { public_ip_address := some "/subscriptions/sub1/resourceGroups/rg1/providers/Microsoft.Network/publicIPAddresses/ip1",
          resource_group_name := some "rg1" } =
      .ok { public_ip_address := some "/subscriptions/sub1/resourceGroups/rg1/providers/Microsoft.Network/publicIPAddresses/ip1",
            resource_group_name := some "rg1" } := by
  refine ⟨?_, ?_, ?_⟩
  · exact ((claim_C2_amended.1 ⟨"sub1"⟩
      { backend_address_pool := some "pool1", load_balancer_name := some "lb1",
        resource_group_name := some "rg1" } "pool1" "lb1" "rg1" rfl (by decide) rfl rfl
      (by decide) (by decide) (by decide) (by decide) (by decide) (by decide)
      (by decide) (by decide)).1).trans (by rfl)
  · exact ((claim_C2_amended.2 ⟨"sub1"⟩
      { public_ip_address := some "ip1", resource_group_name := some "rg1" } "ip1" "rg1"
      rfl (by decide) rfl (by decide) (by decide) (by decide) (by decide) (by decide)
      (by decide)).1).trans (by rfl)
  · exact ((claim_C2_amended.2 ⟨"sub1"⟩
      { public_ip_address := some "ip1", resource_group_name := some "rg1" } "ip1" "rg1"
      rfl (by decide) rfl (by decide) (by decide) (by decide) (by decide) (by decide)
      (by decide)).2).trans (by rfl)

/-- C2 counterexample: after the address pool validator resolves the
bare name `pool1`, applying the same validator to the resulting
namespace does not leave it unchanged and succeed — it raises the
omit-`--lb-name` error, because the load-balancer name is still set. -/
theorem claim_C2_counterexample :
    validate_address_pool_name_or_id ⟨"sub1"⟩
        { backend_address_pool := some "pool1", load_balancer_name := some "lb1",
          resource_group_name := some "rg1" } =
      .ok { backend_address_pool := some "/subscriptions/sub1/resourceGroups/rg1/providers/Microsoft.Network/loadBalancers/lb1/backendAddressPools/pool1",
            load_balancer_name := some "lb1", resource_group_name := some "rg1" } ∧
    validate_address_pool_name_or_id ⟨"sub1"⟩
        { backend_address_pool := some "/subscriptions/sub1/resourceGroups/rg1/providers/Microsoft.Network/loadBalancers/lb1/backendAddressPools/pool1",
          load_balancer_name := some "lb1", resource_group_name := some "rg1" } =
      .error (.cli "Please omit --lb-name when specifying an address pool ID.",
        { backend_address_pool := some "/subscriptions/sub1/resourceGroups/rg1/providers/Microsoft.Network/loadBalancers/lb1/backendAddressPools/pool1",
          load_balancer_name := some "lb1", resource_group_name := some "rg1" }) ∧
    Except.isOk (validate_address_pool_name_or_id ⟨"sub1"⟩
      { backend_address_pool := some "/subscriptions/sub1/resourceGroups/rg1/providers/Microsoft.Network/loadBalancers/lb1/backendAddressPools/pool1",
        load_balancer_name := some "lb1", resource_group_name := some "rg1" }) = false :=
  ⟨by rfl, by rfl, by rfl⟩

end AzNetValidators
